import Mathlib

/-!
Verification development for the POE2 auto-logout monitor (`import.py`).

The program samples the screen, template-matches a gauge ("orb"), measures
the fraction of colored pixels inside the matched region, and presses a
configured trigger key when the fraction falls below a user threshold.

We embed the color-mask functions, the percent-fill computation, the
per-cycle decision logic of `monitor_function`, the surrounding `while
monitoring` loop, and the `start_monitoring` / `stop_monitoring` commands.
Pixels are modelled in HSV space (OpenCV scale: hue 0–180, saturation and
value 0–255), matching the representation every mask operates on after
`cv2.cvtColor(..., COLOR_BGR2HSV)`.  Floating-point percentages are
modelled as rationals; machine screenshots, `cv2.matchTemplate` and
`pyautogui` are external collaborators whose per-cycle outputs (match
confidence, pixel buffer of the matched region) are inputs to the loop.
-/

/-- A pixel in OpenCV HSV representation: hue on the 0–180 scale,
saturation and value on the 0–255 scale. -/
structure HSVPixel where
  h : Nat
  s : Nat
  v : Nat
deriving DecidableEq, Repr

/-- Per-pixel semantics of `cv2.inRange(hsv, lower, upper)`: the pixel is in
the mask iff every channel lies inclusively between the bounds. -/
def inRange (p : HSVPixel) (lh ls lv uh us uv : Nat) : Bool :=
  decide (lh ≤ p.h ∧ p.h ≤ uh ∧ ls ≤ p.s ∧ p.s ≤ us ∧ lv ≤ p.v ∧ p.v ≤ uv)

/-- `get_blue_mask`: blue pixels for the mana orb,
HSV range [70,40,40]..[180,255,255]. -/
def get_blue_mask (p : HSVPixel) : Bool :=
  inRange p 70 40 40 180 255 255

/-- `get_red_mask`: red pixels for the life orb; red is split into the two
hue ranges [0,50,50]..[10,255,255] and [170,50,50]..[180,255,255], combined
with `cv2.bitwise_or`. -/
def get_red_mask (p : HSVPixel) : Bool :=
  inRange p 0 50 50 10 255 255 || inRange p 170 50 50 180 255 255

/-- `get_green_mask`: green pixels for the poisoned life orb,
HSV range [40,50,50]..[90,255,255]. -/
def get_green_mask (p : HSVPixel) : Bool :=
  inRange p 40 50 50 90 255 255

/-- The combined mask used for the life orb: `cv2.bitwise_or(red_mask,
green_mask)` (lines 151–153 of `import.py`). -/
def life_mask (p : HSVPixel) : Bool :=
  get_red_mask p || get_green_mask p

/-- `cv2.countNonZero(mask)`: number of pixels the rule accepts. -/
def countNonZero (rule : HSVPixel → Bool) (pixels : List HSVPixel) : Nat :=
  (pixels.filter rule).length

/-- `percent = (pixel_count / total_pixels) * 100` (lines 155–157). -/
def percentFilled (rule : HSVPixel → Bool) (pixels : List HSVPixel) : ℚ :=
  ((countNonZero rule pixels : ℚ) / (pixels.length : ℚ)) * 100

/-- The HSV encoding of a black pixel (value 0, and hence saturation 0). -/
def blackPixel : HSVPixel := ⟨0, 0, 0⟩

/-- The trigger key selected by the radio buttons: `"esc"` or `"f9"`. -/
inductive TriggerKey where
  | esc
  | f9
deriving DecidableEq, Repr

/-- The monitored gauge selected by the radio buttons: `"mana"` or `"life"`. -/
inductive GaugeKind where
  | mana
  | life
deriving DecidableEq, Repr

/-- The classification rule `monitor_function` applies for the selected gauge:
blue mask for mana, red-or-green combined mask for life (lines 148–153). -/
def ruleFor : GaugeKind → HSVPixel → Bool
  | .mana => get_blue_mask
  | .life => life_mask

/-- One `update_status(message, color)` call. -/
structure StatusUpdate where
  text : String
  color : String
deriving DecidableEq, Repr

def statusProtected : StatusUpdate := ⟨"PROTECTED", "green"⟩

def statusUnprotected : StatusUpdate := ⟨"UNPROTECTED", "red"⟩

def statusOrbsNotDetected : StatusUpdate := ⟨"Orbs not detected", "blue"⟩

/-- The program's mutable globals, together with the threshold entry text and
a counter of monitor threads spawned (one per `threading.Thread(...).start()`
in `start_monitoring`). -/
structure AppState where
  monitoring : Bool
  monitor_option : GaugeKind
  color_threshold : Int
  protection_blocked : Bool
  trigger_key : TriggerKey
  threshold_entry : String
  threadsSpawned : Nat
deriving DecidableEq, Repr

/-- What the external collaborators hand one loop iteration: the best
template-match confidence `max_val` from `cv2.minMaxLoc` and the HSV pixels
of the matched orb region grabbed by `mss`. -/
structure CycleInput where
  conf : ℚ
  orbPixels : List HSVPixel

/-- The observable outcome of one loop body: the successor state, the single
status update issued, the key pressed (if any), and whether the body hit
`break`. -/
structure CycleResult where
  state : AppState
  status : StatusUpdate
  pressed : Option TriggerKey
  brk : Bool

/-- One iteration of the `while monitoring` body of `monitor_function`
(lines 121–182): template matching succeeds when `max_val >= 0.7`; then,
unless the trigger is latched, `percent > color_threshold` reports
PROTECTED, `0.1 < percent <= color_threshold` presses the trigger key,
latches, clears `monitoring` and breaks, and `percent <= 0.1` reports the
orbs as not detected. -/
def cycleStep (st : AppState) (inp : CycleInput) : CycleResult :=
  if (7 : ℚ)/10 ≤ inp.conf then
    let percent := percentFilled (ruleFor st.monitor_option) inp.orbPixels
    if st.protection_blocked = false then
      if (st.color_threshold : ℚ) < percent then
        ⟨st, statusProtected, none, false⟩
      else if (1 : ℚ)/10 < percent then
        ⟨{ st with protection_blocked := true, monitoring := false },
          statusUnprotected, some st.trigger_key, true⟩
      else
        ⟨st, statusOrbsNotDetected, none, false⟩
    else
      ⟨st, statusUnprotected, none, false⟩
  else
    ⟨st, statusOrbsNotDetected, none, false⟩

/-- The observables of a whole run of the sampling loop. -/
structure LoopResult where
  state : AppState
  statuses : List StatusUpdate
  keys : List TriggerKey
deriving DecidableEq, Repr

/-- The `while monitoring` loop, driven by the list of per-iteration inputs:
the flag is read at the top of each iteration, and `break` ends the run. -/
def runLoop : AppState → List CycleInput → LoopResult
  | st, [] => ⟨st, [], []⟩
  | st, inp :: rest =>
    if st.monitoring = true then
      if (cycleStep st inp).brk = true then
        ⟨(cycleStep st inp).state, [(cycleStep st inp).status],
          (cycleStep st inp).pressed.toList⟩
      else
        ⟨(runLoop (cycleStep st inp).state rest).state,
          (cycleStep st inp).status
            :: (runLoop (cycleStep st inp).state rest).statuses,
          (cycleStep st inp).pressed.toList
            ++ (runLoop (cycleStep st inp).state rest).keys⟩
    else
      ⟨st, [], []⟩

/-- The states at which the loop body is actually entered during a run:
the flag is tested at the top of each iteration, and `break` ends the run. -/
def statesEntered : AppState → List CycleInput → List AppState
  | _, [] => []
  | st, inp :: rest =>
    if st.monitoring = true then
      if (cycleStep st inp).brk = true then [st]
      else st :: statesEntered (cycleStep st inp).state rest
    else []

/-- `start_monitoring` (lines 186–199).  The outcome of Python's
`int(threshold_entry.get())` is passed in as `entryParse`: `some n` when the
entry text parses as an integer, `none` when `int` raises `ValueError`, in
which case the threshold falls back to 10 and `"10"` is written back into
the entry widget.  The body runs only when monitoring is off; it resets the
latch, sets the flag and spawns one monitor thread. -/
def start_monitoring (st : AppState) (entryParse : Option Int) : AppState :=
  if st.monitoring = false then
    let (thr, entry) :=
      match entryParse with
      | some n => (n, st.threshold_entry)
      | none => ((10 : Int), "10")
    { st with
      color_threshold := thr
      threshold_entry := entry
      protection_blocked := false
      monitoring := true
      threadsSpawned := st.threadsSpawned + 1 }
  else
    st

/-- `stop_monitoring` (lines 201–204): clears the flag, nothing else. -/
def stop_monitoring (st : AppState) : AppState :=
  { st with monitoring := false }

/-- A loaded template image: `cv2.imread` result with its `shape[:2]`. -/
structure Template where
  height : Nat
  width : Nat
deriving DecidableEq, Repr

/-- The observables of one invocation of `monitor_function`: final state,
status updates delivered, keys pressed, how many template load operations
(`cv2.imread` calls) the invocation performed, and whether a template-load
ERROR line was printed. -/
structure RunOutput where
  state : AppState
  statuses : List StatusUpdate
  keys : List TriggerKey
  templateLoads : Nat
  errorPrinted : Bool
deriving DecidableEq, Repr

/-- `monitor_function` (lines 80–184): the thread body loads the two
templates first (both `cv2.imread` calls run, lines 98–99); if either is
`None` it prints an ERROR and returns — without touching `monitoring` and
without any status update — otherwise it runs the sampling loop. -/
def monitor_function (manaT lifeT : Option Template) (st : AppState)
    (inputs : List CycleInput) : RunOutput :=
  match manaT, lifeT with
  | none, _ => ⟨st, [], [], 2, true⟩
  | some _, none => ⟨st, [], [], 2, true⟩
  | some _, some _ =>
    ⟨(runLoop st inputs).state, (runLoop st inputs).statuses,
      (runLoop st inputs).keys, 2, false⟩

/-- The program's initial globals: monitoring off, mana gauge, threshold 10,
latch clear, Esc trigger, entry text `"10"`. -/
def initialState : AppState := ⟨false, .mana, 10, false, .esc, "10", 0⟩

/-- A state mid-run: monitoring on, mana gauge, threshold 60, latch clear. -/
def runningState : AppState := ⟨true, .mana, 60, false, .esc, "60", 1⟩

/-- A saturated blue pixel (inside the mana mask's HSV range). -/
def bluePix : HSVPixel := ⟨100, 200, 200⟩

/-- A cycle whose match confidence is 1 and whose orb region is one blue
pixel and one black pixel: 50% filled. -/
def trigInput : CycleInput := ⟨1, [bluePix, blackPixel]⟩

/-- A state mid-run with a degenerate user threshold of 0. -/
def lowThresholdState : AppState := ⟨true, .mana, 0, false, .esc, "0", 1⟩

/-- A cycle with full confidence whose orb region has 1 blue pixel out of
1000: 0.1% filled. -/
def tinyFillInput : CycleInput := ⟨1, bluePix :: List.replicate 999 blackPixel⟩

/-! ### Helper lemmas -/

theorem countNonZero_le (rule : HSVPixel → Bool) (pixels : List HSVPixel) :
    countNonZero rule pixels ≤ pixels.length :=
  List.length_filter_le _ _

theorem start_monitoring_of_running (st : AppState) (p : Option Int)
    (h : st.monitoring = true) : start_monitoring st p = st := by
  simp [start_monitoring, h]

theorem percent_trigInput :
    percentFilled (ruleFor runningState.monitor_option)
      trigInput.orbPixels = 50 := by
  norm_num [percentFilled, countNonZero, ruleFor, runningState, trigInput,
    bluePix, blackPixel, get_blue_mask, inRange, List.filter]

theorem cycleStep_runningState_trigInput :
    cycleStep runningState trigInput
      = ⟨⟨false, .mana, 60, true, .esc, "60", 1⟩, statusUnprotected,
          some .esc, true⟩ := by
  rw [cycleStep]
  rw [if_pos (by norm_num [trigInput])]
  rw [percent_trigInput]
  norm_num [runningState]

theorem percent_tinyFillInput :
    percentFilled (ruleFor lowThresholdState.monitor_option)
      tinyFillInput.orbPixels = (1 : ℚ)/10 := by
  have h999 : (List.replicate 999 blackPixel).filter get_blue_mask = [] :=
    List.filter_eq_nil_iff.mpr fun a ha => by
      rw [List.eq_of_mem_replicate ha]; decide
  have hcount : countNonZero get_blue_mask tinyFillInput.orbPixels = 1 := by
    unfold countNonZero
    rw [show tinyFillInput.orbPixels = bluePix :: List.replicate 999 blackPixel
      from rfl]
    rw [List.filter_cons_of_pos (by decide), h999]
    rfl
  have hlen : tinyFillInput.orbPixels.length = 1000 := by
    rw [show tinyFillInput.orbPixels = bluePix :: List.replicate 999 blackPixel
      from rfl]
    rw [List.length_cons, List.length_replicate]
  show percentFilled get_blue_mask tinyFillInput.orbPixels = (1 : ℚ)/10
  unfold percentFilled
  rw [hcount, hlen]
  norm_num

/-! ### C5: classify returns (matching/total)·100 in [0,100] -/

/-- C5: for every pixel buffer and every classification rule of the program
(blue, red, green, and the combined life rule), the computed percentage is
`(matching / total) * 100`, lies in `[0, 100]`, is `0` on an all-black
buffer, and is `100` on a buffer every pixel of which matches the rule. -/
theorem spec_C5 (rule : HSVPixel → Bool)
    (hrule : rule = get_blue_mask ∨ rule = get_red_mask ∨
      rule = get_green_mask ∨ rule = life_mask)
    (pixels : List HSVPixel) (hne : pixels ≠ []) :
    percentFilled rule pixels
        = ((countNonZero rule pixels : ℚ) / (pixels.length : ℚ)) * 100
    ∧ 0 ≤ percentFilled rule pixels
    ∧ percentFilled rule pixels ≤ 100
    ∧ ((∀ p ∈ pixels, p = blackPixel) → percentFilled rule pixels = 0)
    ∧ ((∀ p ∈ pixels, rule p = true) → percentFilled rule pixels = 100) := by
  have hlen : 0 < (pixels.length : ℚ) := by
    exact_mod_cast List.length_pos.mpr hne
  refine ⟨rfl, ?_, ?_, ?_, ?_⟩
  · unfold percentFilled
    positivity
  · unfold percentFilled
    have hc : (countNonZero rule pixels : ℚ) ≤ (pixels.length : ℚ) := by
      exact_mod_cast countNonZero_le rule pixels
    have hdiv : (countNonZero rule pixels : ℚ) / (pixels.length : ℚ) ≤ 1 :=
      (div_le_one hlen).mpr hc
    calc ((countNonZero rule pixels : ℚ) / (pixels.length : ℚ)) * 100
        ≤ 1 * 100 := by
          exact mul_le_mul_of_nonneg_right hdiv (by norm_num)
      _ = 100 := by norm_num
  · intro hall
    have hblack : rule blackPixel = false := by
      rcases hrule with rfl | rfl | rfl | rfl <;> decide
    have hzero : countNonZero rule pixels = 0 := by
      unfold countNonZero
      rw [List.filter_eq_nil_iff.mpr fun a ha => by
        rw [hall a ha, hblack]; simp]
      rfl
    unfold percentFilled
    rw [hzero]
    simp
  · intro hall
    have hfull : countNonZero rule pixels = pixels.length := by
      unfold countNonZero
      rw [List.filter_eq_self.mpr hall]
    unfold percentFilled
    rw [hfull, div_self (ne_of_gt hlen)]
    norm_num

/-- Witness for C5 at a concrete buffer: a single black pixel yields 0 for
the blue rule. -/
theorem spec_C5_witness :
    percentFilled get_blue_mask [blackPixel] = 0 :=
  (spec_C5 get_blue_mask (Or.inl rfl) [blackPixel] (by simp)).2.2.2.1
    (fun p hp => by simpa using hp)

/-! ### C6: red classification across the hue wrap-around -/

/-- C6: every pixel with hue in [0,10] or [170,180] (saturation and value at
least the floor 50, within the 8-bit range) classifies as red; hue 2 and hue
178 are red, hue 90 never is. -/
theorem spec_C6 :
    (∀ h s v : Nat, 50 ≤ s → s ≤ 255 → 50 ≤ v → v ≤ 255 →
        (h ≤ 10 ∨ (170 ≤ h ∧ h ≤ 180)) → get_red_mask ⟨h, s, v⟩ = true)
    ∧ get_red_mask ⟨2, 128, 128⟩ = true
    ∧ get_red_mask ⟨178, 128, 128⟩ = true
    ∧ (∀ s v : Nat, get_red_mask ⟨90, s, v⟩ = false) := by
  refine ⟨?_, by decide, by decide, ?_⟩
  · intro h s v h50s hs255 h50v hv255 hh
    simp only [get_red_mask, inRange, Bool.or_eq_true, decide_eq_true_eq]
    omega
  · intro s v
    simp only [get_red_mask, inRange, Bool.or_eq_false_iff,
      decide_eq_false_iff_not]
    omega

/-- Witness for C6: the wrap-around bound applied at hue 178. -/
theorem spec_C6_witness : get_red_mask ⟨178, 60, 60⟩ = true :=
  spec_C6.1 178 60 60 (by decide) (by decide) (by decide) (by decide)
    (Or.inr ⟨by decide, by decide⟩)

/-! ### C1: the per-cycle decision (amended at the degenerate threshold) -/

/-- C1 (amended): in a cycle with successful localization (confidence at
least the 0.7 matching threshold) and the latch clear, the trigger key is
pressed and the run transitions to Halted (flag cleared, latch set, loop
broken) if and only if 0.1 < percentFilled ≤ threshold; if
percentFilled > threshold the status is PROTECTED and the loop continues;
if percentFilled ≤ 0.1 **and percentFilled ≤ threshold** the status is the
not-detected one, no action, loop continues.  (The extra bound on the third
branch is forced: the code tests `percent > color_threshold` first, so with
a threshold below 0.1 a tiny positive fill reports PROTECTED.) -/
theorem spec_C1 (st : AppState) (inp : CycleInput)
    (hmon : st.monitoring = true)
    (hconf : (7 : ℚ)/10 ≤ inp.conf)
    (hlatch : st.protection_blocked = false) :
    (((cycleStep st inp).pressed = some st.trigger_key
        ∧ (cycleStep st inp).state.monitoring = false
        ∧ (cycleStep st inp).state.protection_blocked = true
        ∧ (cycleStep st inp).brk = true)
      ↔ ((1 : ℚ)/10 < percentFilled (ruleFor st.monitor_option) inp.orbPixels
          ∧ percentFilled (ruleFor st.monitor_option) inp.orbPixels
              ≤ (st.color_threshold : ℚ)))
    ∧ ((st.color_threshold : ℚ)
          < percentFilled (ruleFor st.monitor_option) inp.orbPixels →
        (cycleStep st inp).status = statusProtected
        ∧ (cycleStep st inp).pressed = none
        ∧ (cycleStep st inp).state = st
        ∧ (cycleStep st inp).brk = false)
    ∧ (percentFilled (ruleFor st.monitor_option) inp.orbPixels ≤ (1 : ℚ)/10 →
        percentFilled (ruleFor st.monitor_option) inp.orbPixels
            ≤ (st.color_threshold : ℚ) →
        (cycleStep st inp).status = statusOrbsNotDetected
        ∧ (cycleStep st inp).pressed = none
        ∧ (cycleStep st inp).state = st
        ∧ (cycleStep st inp).brk = false) := by
  rw [cycleStep, if_pos hconf, if_pos hlatch]
  by_cases h1 : (st.color_threshold : ℚ)
      < percentFilled (ruleFor st.monitor_option) inp.orbPixels
  · rw [if_pos h1]
    refine ⟨⟨fun h => ?_, fun h => absurd h.2 (not_le.mpr h1)⟩,
      fun _ => ⟨rfl, rfl, rfl, rfl⟩, fun _ hpt => absurd hpt (not_le.mpr h1)⟩
    exact absurd h.1 (by simp)
  · rw [if_neg h1]
    by_cases h2 : (1 : ℚ)/10
        < percentFilled (ruleFor st.monitor_option) inp.orbPixels
    · rw [if_pos h2]
      exact ⟨⟨fun _ => ⟨h2, not_lt.mp h1⟩, fun _ => ⟨rfl, rfl, rfl, rfl⟩⟩,
        fun h => absurd h h1, fun hp _ => absurd hp (not_le.mpr h2)⟩
    · rw [if_neg h2]
      refine ⟨⟨fun h => absurd h.1 (by simp), fun h => absurd h.1 h2⟩,
        fun h => absurd h h1, fun _ _ => ⟨rfl, rfl, rfl, rfl⟩⟩

/-- C1 counterexample: with the user threshold set to 0 and a buffer filled
0.1% (1 blue pixel in 1000), all the claim's hypotheses hold and
percentFilled ≤ 0.1, yet the cycle reports PROTECTED — not the not-detected
status the claim requires. -/
theorem spec_C1_counterexample :
    lowThresholdState.monitoring = true
    ∧ lowThresholdState.protection_blocked = false
    ∧ (7 : ℚ)/10 ≤ tinyFillInput.conf
    ∧ percentFilled (ruleFor lowThresholdState.monitor_option)
        tinyFillInput.orbPixels ≤ (1 : ℚ)/10
    ∧ (cycleStep lowThresholdState tinyFillInput).status = statusProtected
    ∧ statusProtected ≠ statusOrbsNotDetected := by
  refine ⟨rfl, rfl, by norm_num [tinyFillInput], ?_, ?_, by decide⟩
  · rw [percent_tinyFillInput]
  · rw [cycleStep, if_pos (by norm_num [tinyFillInput])]
    rw [percent_tinyFillInput]
    norm_num [lowThresholdState]

/-- Witness for the amended C1: a run at threshold 60 seeing a 50%-filled
buffer presses the trigger and clears the run flag. -/
theorem spec_C1_witness :
    (cycleStep runningState trigInput).pressed = some runningState.trigger_key
    ∧ (cycleStep runningState trigInput).state.monitoring = false := by
  have h := (spec_C1 runningState trigInput rfl
    (by norm_num [trigInput]) rfl).1
  have h2 := h.mpr ⟨by rw [percent_trigInput]; norm_num,
    by rw [percent_trigInput]; norm_num [runningState]⟩
  exact ⟨h2.1, h2.2.1⟩

/-! ### C8: non-numeric threshold input falls back to 10 -/

/-- C8: starting a run with an entry text that does not parse as an integer
coerces the threshold to 10 and writes `"10"` back into the entry; a parsed
integer is used as-is and the entry is untouched. -/
theorem spec_C8 (st : AppState) (h : st.monitoring = false) :
    ((start_monitoring st none).color_threshold = 10
      ∧ (start_monitoring st none).threshold_entry = "10")
    ∧ (∀ n : Int, (start_monitoring st (some n)).color_threshold = n
      ∧ (start_monitoring st (some n)).threshold_entry
          = st.threshold_entry) := by
  refine ⟨⟨?_, ?_⟩, fun n => ⟨?_, ?_⟩⟩ <;> simp [start_monitoring, h]

/-- Witness for C8 at the initial state. -/
theorem spec_C8_witness :
    (start_monitoring initialState none).color_threshold = 10
    ∧ (start_monitoring initialState none).threshold_entry = "10" :=
  (spec_C8 initialState rfl).1

/-! ### C9: start and stop are idempotent -/

/-- C9: `start_monitoring` while a run is active changes nothing (in
particular spawns no second thread: the whole state, thread counter
included, is unchanged), and `stop_monitoring` while already stopped
changes nothing. -/
theorem spec_C9 :
    (∀ (st : AppState) (p : Option Int), st.monitoring = true →
      start_monitoring st p = st)
    ∧ (∀ st : AppState, st.monitoring = false → stop_monitoring st = st) := by
  refine ⟨start_monitoring_of_running, fun st h => ?_⟩
  cases st
  simp_all [stop_monitoring]

/-- Witness for C9 at concrete states. -/
theorem spec_C9_witness :
    start_monitoring runningState (some 5) = runningState
    ∧ stop_monitoring initialState = initialState :=
  ⟨spec_C9.1 runningState (some 5) rfl, spec_C9.2 initialState rfl⟩

/-! ### Loop lemmas -/

theorem cycleStep_cases (st : AppState) (inp : CycleInput) :
    ((cycleStep st inp).state = st
      ∧ (cycleStep st inp).pressed = none
      ∧ (cycleStep st inp).brk = false)
    ∨ (st.protection_blocked = false
      ∧ (cycleStep st inp).state
          = { st with protection_blocked := true, monitoring := false }
      ∧ (cycleStep st inp).pressed = some st.trigger_key
      ∧ (cycleStep st inp).brk = true) := by
  rw [cycleStep]
  by_cases h1 : (7 : ℚ)/10 ≤ inp.conf
  · rw [if_pos h1]
    by_cases h2 : st.protection_blocked = false
    · rw [if_pos h2]
      by_cases h3 : (st.color_threshold : ℚ)
          < percentFilled (ruleFor st.monitor_option) inp.orbPixels
      · rw [if_pos h3]; exact Or.inl ⟨rfl, rfl, rfl⟩
      · rw [if_neg h3]
        by_cases h4 : (1 : ℚ)/10
            < percentFilled (ruleFor st.monitor_option) inp.orbPixels
        · rw [if_pos h4]; exact Or.inr ⟨h2, rfl, rfl, rfl⟩
        · rw [if_neg h4]; exact Or.inl ⟨rfl, rfl, rfl⟩
    · rw [if_neg h2]; exact Or.inl ⟨rfl, rfl, rfl⟩
  · rw [if_neg h1]; exact Or.inl ⟨rfl, rfl, rfl⟩

theorem runLoop_latch (st : AppState) (inputs : List CycleInput)
    (h : st.protection_blocked = false) :
    (runLoop st inputs).keys.length ≤ 1
    ∧ ((runLoop st inputs).state.protection_blocked = true
        ↔ (runLoop st inputs).keys ≠ []) := by
  induction inputs generalizing st with
  | nil => simp [runLoop, h]
  | cons inp rest ih =>
    rw [runLoop]
    by_cases hm : st.monitoring = true
    · rw [if_pos hm]
      rcases cycleStep_cases st inp with ⟨hs, hp, hb⟩ | ⟨_, hs, hp, hb⟩
      · rw [if_neg (by simp [hb]), hs, hp]
        simpa using ih st h
      · rw [if_pos hb, hs, hp]
        simp
    · rw [if_neg hm]
      simp [h]

/-! ### C2: the latch fires at most once per run and is reset only by start -/

/-- C2: within a run begun with the latch clear, at most one trigger fires
and the latch ends true exactly when one fired; a cycle never clears a set
latch and `stop_monitoring` never touches it (so only a new `start` resets
it, and it does reset it); and after a halt, a `start` followed by a
successfully-localized cycle whose fill is in (0.1, 10] with the threshold
re-read as 10 presses the trigger again. -/
theorem spec_C2 :
    (∀ (st : AppState) (inputs : List CycleInput),
      st.protection_blocked = false →
      (runLoop st inputs).keys.length ≤ 1
      ∧ ((runLoop st inputs).state.protection_blocked = true
          ↔ (runLoop st inputs).keys ≠ []))
    ∧ (∀ (st : AppState) (inp : CycleInput),
        st.protection_blocked = true →
        (cycleStep st inp).state.protection_blocked = true)
    ∧ (∀ st : AppState,
        (stop_monitoring st).protection_blocked = st.protection_blocked)
    ∧ (∀ (st : AppState) (p : Option Int), st.monitoring = false →
        (start_monitoring st p).protection_blocked = false)
    ∧ (∀ (st : AppState) (inp : CycleInput),
        st.monitoring = false →
        (7 : ℚ)/10 ≤ inp.conf →
        (1 : ℚ)/10 < percentFilled
          (ruleFor (start_monitoring st (some 10)).monitor_option)
          inp.orbPixels →
        percentFilled
          (ruleFor (start_monitoring st (some 10)).monitor_option)
          inp.orbPixels ≤ 10 →
        (cycleStep (start_monitoring st (some 10)) inp).pressed
          = some (start_monitoring st (some 10)).trigger_key) := by
  refine ⟨runLoop_latch, ?_, ?_, ?_, ?_⟩
  · intro st inp h
    rcases cycleStep_cases st inp with ⟨hs, _, _⟩ | ⟨hl, _, _, _⟩
    · rw [hs]; exact h
    · rw [h] at hl; exact absurd hl (by simp)
  · intro st; rfl
  · intro st p h; simp [start_monitoring, h]
  · intro st inp hm hconf hlo hhi
    have hlatch : (start_monitoring st (some 10)).protection_blocked
        = false := by simp [start_monitoring, hm]
    have hthr : (start_monitoring st (some 10)).color_threshold = 10 := by
      simp [start_monitoring, hm]
    have hnp : ¬ ((start_monitoring st (some 10)).color_threshold : ℚ)
        < percentFilled
          (ruleFor (start_monitoring st (some 10)).monitor_option)
          inp.orbPixels := by
      rw [hthr]
      push_cast
      linarith
    rw [cycleStep, if_pos hconf, if_pos hlatch, if_neg hnp, if_pos hlo]

/-- Witness for C2 at a concrete one-cycle run. -/
theorem spec_C2_witness :
    (runLoop runningState [trigInput]).keys.length ≤ 1 :=
  (spec_C2.1 runningState [trigInput] rfl).1

/-! ### C3: latching and halting happen in the same cycle -/

/-- C3: a cycle that turns the latch on also clears the run flag and breaks
before any further cycle; and starting from any state satisfying
"latched implies stopped", the loop body is never entered with the latch
set and the run flag on. -/
theorem spec_C3 :
    (∀ (st : AppState) (inp : CycleInput),
      st.protection_blocked = false →
      (cycleStep st inp).state.protection_blocked = true →
      (cycleStep st inp).state.monitoring = false
      ∧ (cycleStep st inp).brk = true)
    ∧ (∀ (st : AppState) (inputs : List CycleInput),
      (st.protection_blocked = true → st.monitoring = false) →
      ∀ s ∈ statesEntered st inputs,
        ¬(s.protection_blocked = true ∧ s.monitoring = true)) := by
  constructor
  · intro st inp h hlatch
    rcases cycleStep_cases st inp with ⟨hs, _, _⟩ | ⟨_, hs, _, hb⟩
    · rw [hs] at hlatch; rw [h] at hlatch; exact absurd hlatch (by simp)
    · rw [hs]; exact ⟨rfl, hb⟩
  · intro st inputs hinv
    induction inputs generalizing st with
    | nil => simp [statesEntered]
    | cons inp rest ih =>
      rw [statesEntered]
      by_cases hm : st.monitoring = true
      · rw [if_pos hm]
        have hl : st.protection_blocked = false := by
          cases hpb : st.protection_blocked
          · rfl
          · rw [hinv hpb] at hm; exact absurd hm (by simp)
        rcases cycleStep_cases st inp with ⟨hs, _, hb⟩ | ⟨_, _, _, hb⟩
        · rw [if_neg (by simp [hb])]
          intro s hsmem
          rcases List.mem_cons.mp hsmem with rfl | hmem
          · simp [hl]
          · refine ih _ ?_ s hmem
            rw [hs]
            intro hpb
            rw [hpb] at hl
            exact absurd hl (by simp)
        · rw [if_pos hb]
          intro s hsmem
          rw [List.mem_singleton.mp hsmem]
          simp [hl]
      · rw [if_neg hm]
        intro s hsmem
        exact absurd hsmem (by simp)

/-- Witness for C3 at the concrete trigger cycle. -/
theorem spec_C3_witness :
    (cycleStep runningState trigInput).state.monitoring = false
    ∧ (cycleStep runningState trigInput).brk = true :=
  spec_C3.1 runningState trigInput rfl
    (by rw [cycleStep_runningState_trigInput])

/-! ### C4: template-load failure behaviour (amended) -/

/-- C4 (amended): the two template images are loaded at the start of every
sampling run — each invocation of the thread body performs both `imread`
calls — and when either load fails the thread prints an ERROR line and
returns before any sampling cycle: the state (the `monitoring` flag
included) is untouched, and no status update and no key press occur.  No
exception is raised; the only visible report is the printed line. -/
theorem spec_C4 (manaT lifeT : Option Template) (st : AppState)
    (inputs : List CycleInput) (h : manaT = none ∨ lifeT = none) :
    (monitor_function manaT lifeT st inputs).templateLoads = 2
    ∧ (monitor_function manaT lifeT st inputs).errorPrinted = true
    ∧ (monitor_function manaT lifeT st inputs).state = st
    ∧ (monitor_function manaT lifeT st inputs).statuses = []
    ∧ (monitor_function manaT lifeT st inputs).keys = [] := by
  rcases h with rfl | rfl
  · exact ⟨rfl, rfl, rfl, rfl, rfl⟩
  · cases manaT
    · exact ⟨rfl, rfl, rfl, rfl, rfl⟩
    · exact ⟨rfl, rfl, rfl, rfl, rfl⟩

/-- C4 counterexample: template loading happens inside every run, not once
at process startup — two runs perform four load operations — and a failed
load leaves the run flag true and delivers nothing to the status sink, so
the core neither raises a startup error nor refuses the start. -/
theorem spec_C4_counterexample :
    (monitor_function none (some ⟨1, 1⟩) runningState []).templateLoads
      + (monitor_function none (some ⟨1, 1⟩) runningState []).templateLoads
      = 4
    ∧ (monitor_function none (some ⟨1, 1⟩) runningState []).state.monitoring
      = true
    ∧ (monitor_function none (some ⟨1, 1⟩) runningState []).statuses = [] :=
  ⟨rfl, rfl, rfl⟩

/-- Witness for the amended C4 at a concrete failed load. -/
theorem spec_C4_witness :
    (monitor_function none (some ⟨1, 1⟩) initialState []).errorPrinted
      = true :=
  (spec_C4 none (some ⟨1, 1⟩) initialState [] (Or.inl rfl)).2.1

/-! ### C10: a failed load wedges the start command -/

/-- C10: when a template fails to load after a start, the thread body
returns with the monitoring flag still true, no status update and no key
press; consequently every further `start_monitoring` is a no-op on the
state, until `stop_monitoring` clears the flag. -/
theorem spec_C10 (st : AppState) (p : Option Int)
    (manaT lifeT : Option Template) (inputs : List CycleInput)
    (hm : st.monitoring = false) (hT : manaT = none ∨ lifeT = none) :
    (monitor_function manaT lifeT (start_monitoring st p) inputs).state.monitoring
      = true
    ∧ (monitor_function manaT lifeT (start_monitoring st p) inputs).statuses
      = []
    ∧ (monitor_function manaT lifeT (start_monitoring st p) inputs).keys = []
    ∧ (∀ q : Option Int,
        start_monitoring
          (monitor_function manaT lifeT (start_monitoring st p) inputs).state q
        = (monitor_function manaT lifeT (start_monitoring st p) inputs).state)
    ∧ (stop_monitoring
        (monitor_function manaT lifeT (start_monitoring st p) inputs).state).monitoring
      = false := by
  have hstate : (monitor_function manaT lifeT (start_monitoring st p) inputs).state
      = start_monitoring st p := by
    rcases hT with rfl | rfl
    · rfl
    · cases manaT <;> rfl
  have hstat : (monitor_function manaT lifeT (start_monitoring st p) inputs).statuses
      = [] := by
    rcases hT with rfl | rfl
    · rfl
    · cases manaT <;> rfl
  have hkeys : (monitor_function manaT lifeT (start_monitoring st p) inputs).keys
      = [] := by
    rcases hT with rfl | rfl
    · rfl
    · cases manaT <;> rfl
  have hmon1 : (start_monitoring st p).monitoring = true := by
    simp [start_monitoring, hm]
  refine ⟨by rw [hstate]; exact hmon1, hstat, hkeys, ?_, ?_⟩
  · intro q
    rw [hstate]
    exact start_monitoring_of_running _ q hmon1
  · rw [hstate]
    simp [stop_monitoring]

/-- Witness for C10 at a concrete wedged start. -/
theorem spec_C10_witness :
    (monitor_function none none
        (start_monitoring initialState (some 10)) []).state.monitoring
      = true :=
  (spec_C10 initialState (some 10) none none [] rfl (Or.inl rfl)).1
